import Mathlib

/-!
# Verification of the Telegram forwarder + query API (src/koch_forwarder.py)

Shallow embedding of the program's behavioural logic:

* `verify_api_key` — the shared-secret authentication gate;
* `get_recent_messages` — the time-windowed message fetch/enrich endpoint
  (`GET /api/messages/...`);
* `get_combined_messages` — the combined-text endpoint;
* `forward_handler` / `runSubscription` — the forward-subscription callback
  and its event loop.

Times are modelled as UTC epoch seconds (`Int`).  The platform client's
history iterator is modelled as the list of messages it would yield, in
yield order; `iter_messages(..., limit=500)` becomes `List.take 500`.
Fields of the Python response dictionaries that are pure renderings of a
value already present (`readable_date`, the ISO rendering of
`time_threshold`) are kept as the underlying value.  Python's stable
`list.sort(key=date, reverse=True)` is modelled by a stable insertion
sort with the same key, which produces the identical output list.
-/

/-- An HTTP error as raised via `HTTPException(status_code, detail)`. -/
structure HttpError where
  status : Nat
  detail : String
deriving DecidableEq, Repr

/-- A message as yielded by the platform client's history iterator,
with the forwarded-origin fields already resolved by the three-step
fallback chain of the source (each independently nullable: `None` when
resolution failed or the message carries no forward annotation).
`text` is `none` when the message has no text (media-only). -/
structure FetchedMessage where
  id : Nat
  text : Option String
  date : Int
  fwdName : Option String
  fwdHandle : Option String
  fwdId : Option Int
deriving DecidableEq, Repr

/-- One record of the API response's `messages` list. -/
structure MessageRecord where
  message_id : Nat
  text : String
  date : Int
  link : String
  text_with_link : String
  forwarded_from_name : Option String
  forwarded_from_handle : Option String
  forwarded_from_id : Option Int
deriving DecidableEq, Repr

/-- Response of `GET /api/messages/.../` (the plain endpoint).
`time_threshold` is the computed cutoff in epoch seconds; the Python
code returns its ISO rendering. -/
structure RecentMessagesResponse where
  success : Bool
  messages : List MessageRecord
  message_count : Nat
  hours_requested : Int
  time_threshold : Int
  channel_id : String
deriving DecidableEq, Repr

/-- Response of `GET /api/messages/.../combined`. -/
structure CombinedResponse where
  success : Bool
  combined_text : String
  message_count : Nat
  messages : List MessageRecord
  processing_date : String
deriving DecidableEq, Repr

/-- Python's whitespace for `str.strip()` (ASCII range). -/
def pyIsSpace (c : Char) : Bool :=
  c = ' ' || c = '\t' || c = '\n' || c = '\r' || c = '\x0b' || c = '\x0c'

/-- Python `s.strip()`: drop leading and trailing whitespace. -/
def pyStrip (s : String) : String :=
  String.mk (((s.data.dropWhile pyIsSpace).reverse.dropWhile pyIsSpace).reverse)

/-- Truthiness of an optional string, as Python evaluates
`msg.get(field)` in a boolean context: `None` and `""` are falsy. -/
def strOptTruthy : Option String → Bool
  | none => false
  | some s => s != ""

/-- Truthiness of the optional channel id (`if not target_channel_id`):
`None` and `0` are falsy. -/
def intOptTruthy : Option Int → Bool
  | none => false
  | some n => n != 0

/-- `channel_id_for_link = str(abs(target_channel_id))[3:]` — Python
slices by characters, so we drop three characters of the decimal
rendering of the absolute value. -/
def channelIdForLink (target_channel_id : Int) : String :=
  String.mk ((toString target_channel_id.natAbs).data.drop 3)

/-- The deep link `https://t.me/c/<short-id>/<message-id>`. -/
def messageLink (target_channel_id : Int) (message_id : Nat) : String :=
  "https://t.me/c/" ++ channelIdForLink target_channel_id ++ "/" ++ toString message_id

/-- The response record built for a retained message (`messages.append({...})`).
`t` is the message's raw text. -/
def mkRecord (target_channel_id : Int) (m : FetchedMessage) (t : String) : MessageRecord :=
  { message_id := m.id
    text := pyStrip t
    date := m.date
    link := messageLink target_channel_id m.id
    text_with_link := pyStrip t ++ "\n🔗 Source: " ++ messageLink target_channel_id m.id
    forwarded_from_name := m.fwdName
    forwarded_from_handle := m.fwdHandle
    forwarded_from_id := m.fwdId }

/-- `message.text and message.text.strip()` evaluated as a boolean:
false when the text is absent (`None`), empty, or whitespace-only. -/
def textOk : Option String → Bool
  | none => false
  | some t => t != "" && pyStrip t != ""

/-- The `async for message in iter_messages(...)` loop body: break as soon
as a fetched message's date precedes the threshold, skip messages whose
text is absent, empty or whitespace-only, append a record otherwise. -/
def collectMessages (target_channel_id : Int) (threshold : Int) :
    List FetchedMessage → List MessageRecord
  | [] => []
  | m :: rest =>
    if m.date < threshold then
      []
    else if textOk m.text then
      mkRecord target_channel_id m (m.text.getD "") ::
        collectMessages target_channel_id threshold rest
    else
      collectMessages target_channel_id threshold rest

/-- `b` may precede `a` in the output: date descending (newest first). -/
def dateDescRel (a b : MessageRecord) : Prop := b.date ≤ a.date

instance : DecidableRel dateDescRel := fun a b =>
  inferInstanceAs (Decidable (b.date ≤ a.date))

instance : IsTotal MessageRecord dateDescRel :=
  ⟨fun a b => le_total b.date a.date⟩

instance : IsTrans MessageRecord dateDescRel :=
  ⟨fun _ _ _ h1 h2 => le_trans h2 h1⟩

/-- `messages.sort(key=lambda x: x['date'], reverse=True)` — Python's
stable sort, descending by `date`; modelled by the stable insertion sort
with the same key, which yields the same list. -/
def sortByDateDesc (l : List MessageRecord) : List MessageRecord :=
  l.insertionSort dateDescRel

/-- `verify_api_key`: with a configured non-empty key, a request whose
`x-api-key` header differs (or is missing, `none`) receives 401;
otherwise the dependency returns `True`. -/
def verify_api_key (n8n_api_key : String) (x_api_key : Option String) :
    Except HttpError Bool :=
  if n8n_api_key != "" && x_api_key != some n8n_api_key then
    Except.error ⟨401, "Invalid API key"⟩
  else
    Except.ok true

/-- `GET /api/messages/.../` handler body.  `connected` models
`telegram_client and telegram_client.is_connected()`; `history` is the
sequence the platform's history iterator would yield for the requested
window, in yield order; `now` is `datetime.now(timezone.utc)` in epoch
seconds. -/
def get_recent_messages (connected : Bool) (target_channel_id : Option Int)
    (now : Int) (history : List FetchedMessage) (hours : Int) :
    Except HttpError RecentMessagesResponse :=
  if !connected then
    Except.error ⟨503, "Telegram client not connected"⟩
  else if !intOptTruthy target_channel_id then
    Except.error ⟨503, "Target channel not configured"⟩
  else
    match target_channel_id with
    | none => Except.error ⟨503, "Target channel not configured"⟩
    | some cid =>
      let time_threshold := now - hours * 3600
      let msgs := collectMessages cid time_threshold (history.take 500)
      let sorted := sortByDateDesc msgs
      Except.ok
        { success := true
          messages := sorted
          message_count := sorted.length
          hours_requested := hours
          time_threshold := time_threshold
          channel_id := toString cid }

/-- `format_message` inside `get_combined_messages`: the source line uses
`@handle` when the handle is truthy, else the name when truthy, else the
deep link; the label is the literal `"Источник: "`. -/
def format_message (msg : MessageRecord) : String :=
  let src :=
    if strOptTruthy msg.forwarded_from_handle then
      "@" ++ msg.forwarded_from_handle.getD ""
    else if strOptTruthy msg.forwarded_from_name then
      msg.forwarded_from_name.getD ""
    else
      msg.link
  msg.text ++ "\nИсточник: " ++ src

/-- `GET /api/messages/.../combined` handler body.  It calls
`get_recent_messages` inside `try/except Exception`, so any
`HTTPException` the inner handler raises is caught and re-raised as a
500 whose detail wraps `str(e)` (which renders as
`"<status>: <detail>"`).  `today` is `datetime.now().date().isoformat()`. -/
def get_combined_messages (connected : Bool) (target_channel_id : Option Int)
    (now : Int) (history : List FetchedMessage) (today : String) (hours : Int) :
    Except HttpError CombinedResponse :=
  match get_recent_messages connected target_channel_id now history hours with
  | Except.error e =>
    Except.error
      ⟨500, "Error creating combined messages: " ++ toString e.status ++ ": " ++ e.detail⟩
  | Except.ok result =>
    Except.ok
      { success := true
        combined_text :=
          String.intercalate "\n\n---\n\n" (result.messages.map format_message)
        message_count := result.message_count
        messages := result.messages
        processing_date := today }

/-- A log line emitted by the forward handler. -/
structure LogEntry where
  ok : Bool
  line : String
deriving DecidableEq, Repr

/-- The registered `forward_handler` callback: attempts the forward and
catches any error (`except Exception`), logging instead of raising — its
result is always `Except.ok`, i.e. no exception escapes the handler. -/
def forward_handler (forward : Nat → Except String Unit) (srcTitle : String)
    (message_id : Nat) : Except String LogEntry :=
  Except.ok
    (match forward message_id with
     | Except.ok _ =>
       ⟨true, "✅ Forwarded message " ++ toString message_id ++ " from " ++ srcTitle⟩
     | Except.error e => ⟨false, "❌ Forward failed: " ++ e⟩)

/-- The platform's event loop delivering a sequence of new-message
notifications to a handler: an exception escaping the handler ends the
subscription (remaining notifications are not delivered).  Returns the
list of notifications actually attempted and the log entries produced. -/
def runSubscription (handler : Nat → Except String LogEntry) :
    List Nat → List Nat × List LogEntry
  | [] => ([], [])
  | e :: rest =>
    match handler e with
    | Except.error _ => ([e], [])
    | Except.ok entry =>
      let p := runSubscription handler rest
      (e :: p.1, entry :: p.2)

/-- The status code of an error response, `none` on success. -/
def errorStatus {α : Type} : Except HttpError α → Option Nat
  | Except.error e => some e.status
  | Except.ok _ => none

deriving instance DecidableEq for Except

/-- The fallback of the documented combined-text source tag when the
handle is not usable: the origin name when present and non-empty, else
the deep link. -/
def claimedNameOrLink (r : MessageRecord) : String :=
  match r.forwarded_from_name with
  | some n => if n = "" then r.link else n
  | none => r.link

/-- The documented combined-text source tag: `@handle` when the origin
handle is present and non-empty, else the origin name when present and
non-empty, else the deep link — in that preference order. -/
def claimedSourceTag (r : MessageRecord) : String :=
  match r.forwarded_from_handle with
  | some h => if h = "" then claimedNameOrLink r else "@" ++ h
  | none => claimedNameOrLink r

/-- The combined-text record format as documented, with the label the
code actually emits (`"Источник: "`, Russian for "Source:"). -/
def claimedFormat (r : MessageRecord) : String :=
  r.text ++ "\nИсточник: " ++ claimedSourceTag r

/-! ## Concrete inputs and responses used by witnesses and counterexamples -/

def c1History : List FetchedMessage :=
  [⟨1, some " hi ", 50, none, none, none⟩]

def c1Resp : RecentMessagesResponse :=
  { success := true
    messages :=
      [⟨1, "hi", 50, "https://t.me/c/1234567890/1",
        "hi\n🔗 Source: https://t.me/c/1234567890/1", none, none, none⟩]
    message_count := 1
    hours_requested := 1
    time_threshold := -3500
    channel_id := "-1001234567890" }

def c2History : List FetchedMessage :=
  [⟨7, some "hello", 100, some "Koch News", some "kochnews", some 555⟩]

def c2Resp : CombinedResponse :=
  { success := true
    combined_text := "hello\nИсточник: @kochnews"
    message_count := 1
    messages :=
      [⟨7, "hello", 100, "https://t.me/c/1234567890/7",
        "hello\n🔗 Source: https://t.me/c/1234567890/7",
        some "Koch News", some "kochnews", some 555⟩]
    processing_date := "2024-01-01" }

def c4History : List FetchedMessage :=
  [⟨1, some "first", 100, none, none, none⟩, ⟨2, some "second", 100, none, none, none⟩]

def c4Resp : RecentMessagesResponse :=
  { success := true
    messages :=
      [⟨1, "first", 100, "https://t.me/c/1234567890/1",
        "first\n🔗 Source: https://t.me/c/1234567890/1", none, none, none⟩,
       ⟨2, "second", 100, "https://t.me/c/1234567890/2",
        "second\n🔗 Source: https://t.me/c/1234567890/2", none, none, none⟩]
    message_count := 2
    hours_requested := 1
    time_threshold := -3500
    channel_id := "-1001234567890" }

def c7History : List FetchedMessage :=
  [⟨3, some "x", 100, none, none, none⟩]

def c7PlainResp : RecentMessagesResponse :=
  { success := true
    messages :=
      [⟨3, "x", 100, "https://t.me/c/1234567890/3",
        "x\n🔗 Source: https://t.me/c/1234567890/3", none, none, none⟩]
    message_count := 1
    hours_requested := 1
    time_threshold := -3500
    channel_id := "-1001234567890" }

def c7CombinedResp : CombinedResponse :=
  { success := true
    combined_text := "x\nИсточник: https://t.me/c/1234567890/3"
    message_count := 1
    messages :=
      [⟨3, "x", 100, "https://t.me/c/1234567890/3",
        "x\n🔗 Source: https://t.me/c/1234567890/3", none, none, none⟩]
    processing_date := "2024-01-02" }

def c8History : List FetchedMessage :=
  [⟨1, some "  good  ", 90, none, none, none⟩,
   ⟨2, some "   ", 80, none, none, none⟩,
   ⟨3, none, 70, none, none, none⟩]

def c8Resp : RecentMessagesResponse :=
  { success := true
    messages :=
      [⟨1, "good", 90, "https://t.me/c/1234567890/1",
        "good\n🔗 Source: https://t.me/c/1234567890/1", none, none, none⟩]
    message_count := 1
    hours_requested := 1
    time_threshold := -3500
    channel_id := "-1001234567890" }

def c10History : List FetchedMessage :=
  [⟨1, some "x", 50, none, none, none⟩]

/-! ## Helper lemmas about the history-iteration loop and the sort -/

theorem mem_collectMessages_date_ge {cid th : Int} {l : List FetchedMessage}
    {rec : MessageRecord} (h : rec ∈ collectMessages cid th l) : th ≤ rec.date := by
  induction l with
  | nil => simp [collectMessages] at h
  | cons m rest ih =>
    simp only [collectMessages] at h
    split at h
    · simp at h
    · rename_i hdate
      split at h
      · rcases List.mem_cons.mp h with h1 | h2
        · subst h1
          simpa [mkRecord] using not_lt.mp hdate
        · exact ih h2
      · exact ih h

theorem mem_collectMessages_exists {cid th : Int} {l : List FetchedMessage}
    {rec : MessageRecord} (h : rec ∈ collectMessages cid th l) :
    ∃ m ∈ l, ∃ t, m.text = some t ∧ pyStrip t ≠ "" ∧ rec = mkRecord cid m t := by
  induction l with
  | nil => simp [collectMessages] at h
  | cons m rest ih =>
    simp only [collectMessages] at h
    split at h
    · simp at h
    · split at h
      · rename_i hok
        rcases List.mem_cons.mp h with h1 | h2
        · rcases hm : m.text with _ | t
          · rw [hm] at hok
            simp [textOk] at hok
          · refine ⟨m, List.mem_cons_self m rest, t, hm, ?_, ?_⟩
            · rw [hm] at hok
              simp only [textOk, Bool.and_eq_true, bne_iff_ne] at hok
              exact hok.2
            · rw [h1, hm]
              rfl
        · obtain ⟨m', hm', t', ht', hne', hrec'⟩ := ih h2
          exact ⟨m', List.mem_cons_of_mem m hm', t', ht', hne', hrec'⟩
      · obtain ⟨m', hm', t', ht', hne', hrec'⟩ := ih h
        exact ⟨m', List.mem_cons_of_mem m hm', t', ht', hne', hrec'⟩

theorem length_collectMessages_le (cid th : Int) (l : List FetchedMessage) :
    (collectMessages cid th l).length ≤ l.length := by
  induction l with
  | nil => simp [collectMessages]
  | cons m rest ih =>
    simp only [collectMessages]
    split
    · simp
    · split
      · simpa using Nat.succ_le_succ ih
      · exact le_trans ih (Nat.le_succ _)

theorem collectMessages_break (cid th : Int) (m : FetchedMessage)
    (hm : m.date < th) (pre post : List FetchedMessage) :
    collectMessages cid th (pre ++ m :: post) = collectMessages cid th pre := by
  induction pre with
  | nil => simp [collectMessages, hm]
  | cons p rest ih =>
    show collectMessages cid th (p :: (rest ++ m :: post)) = collectMessages cid th (p :: rest)
    simp only [collectMessages]
    split
    · rfl
    · split
      · rw [ih]
      · exact ih

theorem collectMessages_all_past (cid th : Int) (l : List FetchedMessage)
    (h : ∀ m ∈ l, m.date < th) : collectMessages cid th l = [] := by
  cases l with
  | nil => rfl
  | cons m rest =>
    simp only [collectMessages]
    rw [if_pos (h m (List.mem_cons_self m rest))]

theorem sorted_sortByDateDesc (l : List MessageRecord) :
    List.Sorted dateDescRel (sortByDateDesc l) :=
  List.sorted_insertionSort dateDescRel l

theorem mem_sortByDateDesc {l : List MessageRecord} {x : MessageRecord} :
    x ∈ sortByDateDesc l ↔ x ∈ l :=
  List.mem_insertionSort dateDescRel

theorem length_sortByDateDesc (l : List MessageRecord) :
    (sortByDateDesc l).length = l.length :=
  List.length_insertionSort dateDescRel l

theorem get_recent_messages_ok_inv {connected : Bool} {tcid : Option Int}
    {now hours : Int} {history : List FetchedMessage} {r : RecentMessagesResponse}
    (hr : get_recent_messages connected tcid now history hours = Except.ok r) :
    ∃ cid, tcid = some cid ∧ connected = true ∧ cid ≠ 0 ∧
      r = { success := true
            messages :=
              sortByDateDesc (collectMessages cid (now - hours * 3600) (history.take 500))
            message_count :=
              (sortByDateDesc
                (collectMessages cid (now - hours * 3600) (history.take 500))).length
            hours_requested := hours
            time_threshold := now - hours * 3600
            channel_id := toString cid } := by
  unfold get_recent_messages at hr
  split at hr
  · simp at hr
  · rename_i hconn
    split at hr
    · simp at hr
    · rename_i htruthy
      match htc : tcid, hr with
      | some cid, hr =>
        simp only [Except.ok.injEq] at hr
        refine ⟨cid, rfl, ?_, ?_, hr.symm⟩
        · simpa using hconn
        · simpa [intOptTruthy] using htruthy

theorem format_message_eq_claimedFormat (r : MessageRecord) :
    format_message r = claimedFormat r := by
  obtain ⟨mid, tx, d, lk, twl, nm, hd, fid⟩ := r
  rcases hd with _ | h
  · rcases nm with _ | n
    · simp [format_message, claimedFormat, claimedSourceTag, claimedNameOrLink, strOptTruthy]
    · by_cases hn : n = "" <;>
        simp [format_message, claimedFormat, claimedSourceTag, claimedNameOrLink,
          strOptTruthy, hn]
  · by_cases hh : h = ""
    · rcases nm with _ | n
      · simp [format_message, claimedFormat, claimedSourceTag, claimedNameOrLink,
          strOptTruthy, hh]
      · by_cases hn : n = "" <;>
          simp [format_message, claimedFormat, claimedSourceTag, claimedNameOrLink,
            strOptTruthy, hh, hn]
    · simp [format_message, claimedFormat, claimedSourceTag, claimedNameOrLink,
        strOptTruthy, hh]

/-! ## Claim theorems -/

/-- C1: for every `hours ≥ 0` and every channel history, every record in
the list returned by GET recent-messages has timestamp ≥ the cutoff
(call time minus `hours`), at most 500 records are ever returned, and
the history iteration stops at the first fetched message whose timestamp
precedes the cutoff (later fetched messages cannot influence the
result). -/
theorem c1_window_cap_early_stop (connected : Bool) (tcid : Option Int)
    (now hours : Int) (history : List FetchedMessage) (r : RecentMessagesResponse)
    (hh : 0 ≤ hours)
    (hr : get_recent_messages connected tcid now history hours = Except.ok r) :
    (∀ m ∈ r.messages, now - hours * 3600 ≤ m.date) ∧
    r.messages.length ≤ 500 ∧
    (∀ (cid th : Int) (pre post : List FetchedMessage) (m : FetchedMessage),
      m.date < th →
      collectMessages cid th (pre ++ m :: post) = collectMessages cid th pre) := by
  obtain ⟨cid, -, -, -, hrr⟩ := get_recent_messages_ok_inv hr
  subst hrr
  refine ⟨?_, ?_, ?_⟩
  · intro m hm
    exact mem_collectMessages_date_ge (mem_sortByDateDesc.mp hm)
  · exact le_trans (le_of_eq (length_sortByDateDesc _))
      (le_trans (length_collectMessages_le _ _ _) (List.length_take_le _ _))
  · intro cid' th pre post m hm
    exact collectMessages_break cid' th m hm pre post

/-- C1 witness: a concrete instance of `c1_window_cap_early_stop`. -/
theorem c1_witness :
    ((0 : Int) ≤ 1 ∧
      get_recent_messages true (some (-1001234567890)) 100 c1History 1 = Except.ok c1Resp) ∧
    ((∀ m ∈ c1Resp.messages, 100 - 1 * 3600 ≤ m.date) ∧
      c1Resp.messages.length ≤ 500 ∧
      (∀ (cid th : Int) (pre post : List FetchedMessage) (m : FetchedMessage),
        m.date < th →
        collectMessages cid th (pre ++ m :: post) = collectMessages cid th pre)) :=
  ⟨⟨by decide, by decide⟩,
    c1_window_cap_early_stop true (some (-1001234567890)) 100 1 c1History c1Resp
      (by decide) (by decide)⟩

/-- C4 (amended): the returned message list is sorted by timestamp
descending (newest first), non-strictly: distinct messages sharing an
epoch second keep their fetch order and appear with equal timestamps. -/
theorem c4_sorted_desc (connected : Bool) (tcid : Option Int) (now hours : Int)
    (history : List FetchedMessage) (r : RecentMessagesResponse)
    (hr : get_recent_messages connected tcid now history hours = Except.ok r) :
    List.Sorted dateDescRel r.messages := by
  obtain ⟨cid, -, -, -, hrr⟩ := get_recent_messages_ok_inv hr
  subst hrr
  exact sorted_sortByDateDesc _

/-- C4 counterexample: a history with two messages in the same epoch
second yields an output whose timestamps are not strictly descending. -/
theorem c4_counterexample :
    get_recent_messages true (some (-1001234567890)) 100 c4History 1 = Except.ok c4Resp ∧
    ¬ List.Pairwise (fun a b : MessageRecord => b.date < a.date) c4Resp.messages := by
  exact ⟨by decide, by decide⟩

/-- C4 witness: a concrete instance of `c4_sorted_desc`. -/
theorem c4_witness :
    (get_recent_messages true (some (-1001234567890)) 100 c4History 1 = Except.ok c4Resp) ∧
    List.Sorted dateDescRel c4Resp.messages :=
  ⟨by decide,
    c4_sorted_desc true (some (-1001234567890)) 100 1 c4History c4Resp (by decide)⟩

/-- C2 (amended): the combined-text endpoint maps each record to
`"<text>\nИсточник: <src>"` (the label the code emits is the Russian
word for "Source:"), where `<src>` is `@handle` when the origin handle
is present and non-empty, else the origin name when present and
non-empty, else the deep link, and joins the formatted records with the
literal separator `"\n\n---\n\n"`. -/
theorem c2_combined_format (connected : Bool) (tcid : Option Int) (now : Int)
    (history : List FetchedMessage) (today : String) (hours : Int)
    (c : CombinedResponse)
    (hc : get_combined_messages connected tcid now history today hours = Except.ok c) :
    ∃ r, get_recent_messages connected tcid now history hours = Except.ok r ∧
      c.combined_text = String.intercalate "\n\n---\n\n" (r.messages.map claimedFormat) := by
  unfold get_combined_messages at hc
  split at hc
  · simp at hc
  · rename_i result hres
    simp only [Except.ok.injEq] at hc
    refine ⟨result, hres, ?_⟩
    rw [← hc]
    show String.intercalate "\n\n---\n\n" (result.messages.map format_message) = _
    rw [show format_message = claimedFormat from funext format_message_eq_claimedFormat]

/-- C2 counterexample: the label in the combined text is the literal
`"Источник: "`, not `"Source: "` as the claim states. -/
theorem c2_counterexample :
    (get_combined_messages true (some (-1001234567890)) 100 c2History "2024-01-01" 1).map
        (fun c => c.combined_text) = Except.ok "hello\nИсточник: @kochnews" ∧
    "hello\nИсточник: @kochnews" ≠ "hello\nSource: @kochnews" := by
  exact ⟨by decide, by decide⟩

/-- C2 witness: a concrete instance of `c2_combined_format`. -/
theorem c2_witness :
    (get_combined_messages true (some (-1001234567890)) 100 c2History "2024-01-01" 1 =
      Except.ok c2Resp) ∧
    (∃ r, get_recent_messages true (some (-1001234567890)) 100 c2History 1 = Except.ok r ∧
      c2Resp.combined_text = String.intercalate "\n\n---\n\n" (r.messages.map claimedFormat)) :=
  ⟨by decide,
    c2_combined_format true (some (-1001234567890)) 100 c2History "2024-01-01" 1 c2Resp
      (by decide)⟩

/-- C3 (amended): when the platform client is not connected or the
target channel is not resolved, the plain messages endpoint responds
503; the combined endpoint calls the plain one inside a catch-all
`except Exception` that also catches the 503 `HTTPException`, so it
responds 500 instead. -/
theorem c3_not_ready_statuses (tcid : Option Int) (now hours : Int)
    (history : List FetchedMessage) (today : String) :
    errorStatus (get_recent_messages false tcid now history hours) = some 503 ∧
    errorStatus (get_recent_messages true none now history hours) = some 503 ∧
    errorStatus (get_combined_messages false tcid now history today hours) = some 500 ∧
    errorStatus (get_combined_messages true none now history today hours) = some 500 :=
  ⟨rfl, rfl, rfl, rfl⟩

/-- C3 counterexample: with the client disconnected, the combined
endpoint's response status is 500, not the claimed 503. -/
theorem c3_counterexample :
    errorStatus (get_combined_messages false none 0 [] "2024-01-01" 24) = some 500 ∧
    (500 : Nat) ≠ 503 :=
  ⟨rfl, by decide⟩

/-- C5: the deep link for target channel id `-1001234567890` and message
id `42` equals `https://t.me/c/1234567890/42`, and in general, for any
channel id whose absolute value's decimal form is `100` followed by `s`,
the link is `https://t.me/c/` ++ `s` ++ `/` ++ the message id. -/
theorem c5_deep_link (s : String) (cid : Int) (mid : Nat)
    (hs : toString cid.natAbs = "100" ++ s) :
    messageLink cid mid = "https://t.me/c/" ++ s ++ "/" ++ toString mid ∧
    messageLink (-1001234567890) 42 = "https://t.me/c/1234567890/42" := by
  constructor
  · unfold messageLink channelIdForLink
    rw [hs, show ("100" ++ s).data = '1' :: '0' :: '0' :: s.data from by
      rw [String.data_append]
      rfl]
    rfl
  · decide

/-- C5 witness: a concrete instance of `c5_deep_link`. -/
theorem c5_witness :
    (toString (Int.natAbs (-1001234567890)) = "100" ++ "1234567890") ∧
    (messageLink (-1001234567890) 42 =
        "https://t.me/c/" ++ "1234567890" ++ "/" ++ toString 42 ∧
      messageLink (-1001234567890) 42 = "https://t.me/c/1234567890/42") :=
  ⟨by decide, c5_deep_link "1234567890" (-1001234567890) 42 (by decide)⟩

/-- C6: with a configured non-empty key, a request whose `x-api-key`
header equals the key passes the gate; any other or missing header value
is rejected with 401; with no key configured, every header value
(including a missing one) passes. -/
theorem c6_auth_gate (k : String) (hk : k ≠ "") :
    verify_api_key k (some k) = Except.ok true ∧
    (∀ v : Option String, v ≠ some k →
      verify_api_key k v = Except.error ⟨401, "Invalid API key"⟩) ∧
    (∀ v : Option String, verify_api_key "" v = Except.ok true) := by
  refine ⟨?_, fun v hv => ?_, fun v => ?_⟩
  · simp [verify_api_key]
  · simp [verify_api_key, hk, hv]
  · simp [verify_api_key]

/-- C6 witness: a concrete instance of `c6_auth_gate` with key
`"secret"`. -/
theorem c6_witness :
    ("secret" : String) ≠ "" ∧
    (verify_api_key "secret" (some "secret") = Except.ok true ∧
      (∀ v : Option String, v ≠ some "secret" →
        verify_api_key "secret" v = Except.error ⟨401, "Invalid API key"⟩) ∧
      (∀ v : Option String, verify_api_key "" v = Except.ok true)) :=
  ⟨by decide, c6_auth_gate "secret" (by decide)⟩

/-- C7: for the same `hours` value and the same underlying fetched
history, the combined endpoint's `message_count` equals the plain
endpoint's `message_count`, both equal the length of the returned
messages list, and the two endpoints return the same messages list. -/
theorem c7_counts_agree (connected : Bool) (tcid : Option Int) (now : Int)
    (history : List FetchedMessage) (today : String) (hours : Int)
    (r : RecentMessagesResponse) (c : CombinedResponse)
    (hr : get_recent_messages connected tcid now history hours = Except.ok r)
    (hc : get_combined_messages connected tcid now history today hours = Except.ok c) :
    c.message_count = r.message_count ∧
    r.message_count = r.messages.length ∧
    c.message_count = c.messages.length ∧
    c.messages = r.messages := by
  unfold get_combined_messages at hc
  rw [hr] at hc
  simp only [Except.ok.injEq] at hc
  subst hc
  obtain ⟨cid, -, -, -, hrr⟩ := get_recent_messages_ok_inv hr
  subst hrr
  exact ⟨rfl, rfl, rfl, rfl⟩

/-- C7 witness: a concrete instance of `c7_counts_agree`. -/
theorem c7_witness :
    (get_recent_messages true (some (-1001234567890)) 100 c7History 1 =
        Except.ok c7PlainResp ∧
      get_combined_messages true (some (-1001234567890)) 100 c7History "2024-01-02" 1 =
        Except.ok c7CombinedResp) ∧
    (c7CombinedResp.message_count = c7PlainResp.message_count ∧
      c7PlainResp.message_count = c7PlainResp.messages.length ∧
      c7CombinedResp.message_count = c7CombinedResp.messages.length ∧
      c7CombinedResp.messages = c7PlainResp.messages) :=
  ⟨⟨by decide, by decide⟩,
    c7_counts_agree true (some (-1001234567890)) 100 c7History "2024-01-02" 1
      c7PlainResp c7CombinedResp (by decide) (by decide)⟩

/-- C8: every record returned by GET recent-messages comes from a
history message whose text is present and not whitespace-only, and the
record's text field is the stripped message text; consequently messages
with empty, absent or whitespace-only text never appear in the output. -/
theorem c8_text_filter (connected : Bool) (tcid : Option Int) (now hours : Int)
    (history : List FetchedMessage) (r : RecentMessagesResponse)
    (hr : get_recent_messages connected tcid now history hours = Except.ok r) :
    ∀ rec ∈ r.messages, ∃ m ∈ history, ∃ t, m.text = some t ∧
      pyStrip t ≠ "" ∧ rec.text = pyStrip t := by
  obtain ⟨cid, -, -, -, hrr⟩ := get_recent_messages_ok_inv hr
  subst hrr
  intro rec hmem
  obtain ⟨m, hm, t, ht, hne, hrec⟩ :=
    mem_collectMessages_exists (mem_sortByDateDesc.mp hmem)
  exact ⟨m, List.mem_of_mem_take hm, t, ht, hne, by rw [hrec]; rfl⟩

/-- C8 witness: a concrete instance of `c8_text_filter` on a history
with one good, one whitespace-only and one text-less message. -/
theorem c8_witness :
    (get_recent_messages true (some (-1001234567890)) 100 c8History 1 = Except.ok c8Resp) ∧
    (∀ rec ∈ c8Resp.messages, ∃ m ∈ c8History, ∃ t, m.text = some t ∧
      pyStrip t ≠ "" ∧ rec.text = pyStrip t) :=
  ⟨by decide,
    c8_text_filter true (some (-1001234567890)) 100 1 c8History c8Resp (by decide)⟩

/-- C9: the forward handler catches every forwarding error internally
(it never lets an exception escape), so for every sequence of inbound
notifications — including ones whose forward fails — every notification
is attempted and a log entry is produced for each. -/
theorem c9_forward_isolation (forward : Nat → Except String Unit)
    (srcTitle : String) (evts : List Nat) :
    (∀ mid, ∃ entry, forward_handler forward srcTitle mid = Except.ok entry) ∧
    (runSubscription (forward_handler forward srcTitle) evts).1 = evts ∧
    (runSubscription (forward_handler forward srcTitle) evts).2.length = evts.length := by
  refine ⟨fun mid => ⟨_, rfl⟩, ?_, ?_⟩
  · induction evts with
    | nil => rfl
    | cons e rest ih => simp [runSubscription, forward_handler, ih]
  · induction evts with
    | nil => rfl
    | cons e rest ih => simp [runSubscription, forward_handler, ih]

/-- C10: the handler imposes no lower bound on `hours`: for negative
`hours` (cutoff in the future) and any history of messages dated no
later than the call time, the response is a success whose messages list
is empty. -/
theorem c10_negative_hours (cid : Int) (hcid : cid ≠ 0) (now hours : Int)
    (hneg : hours < 0) (history : List FetchedMessage)
    (hpast : ∀ m ∈ history, m.date ≤ now) :
    get_recent_messages true (some cid) now history hours =
      Except.ok
        { success := true
          messages := []
          message_count := 0
          hours_requested := hours
          time_threshold := now - hours * 3600
          channel_id := toString cid } := by
  have hth : now < now - hours * 3600 := by omega
  have hcol : collectMessages cid (now - hours * 3600) (history.take 500) = [] :=
    collectMessages_all_past _ _ _ fun m hm =>
      lt_of_le_of_lt (hpast m (List.mem_of_mem_take hm)) hth
  have htr : intOptTruthy (some cid) = true := by simp [intOptTruthy, hcid]
  have hok : get_recent_messages true (some cid) now history hours =
      Except.ok
        { success := true
          messages :=
            sortByDateDesc (collectMessages cid (now - hours * 3600) (history.take 500))
          message_count :=
            (sortByDateDesc
              (collectMessages cid (now - hours * 3600) (history.take 500))).length
          hours_requested := hours
          time_threshold := now - hours * 3600
          channel_id := toString cid } := by
    unfold get_recent_messages
    rw [htr]
    rfl
  rw [hok, hcol]
  rfl

/-- C10 witness: a concrete instance of `c10_negative_hours` with
`hours = -1`. -/
theorem c10_witness :
    ((-1001234567890 : Int) ≠ 0 ∧ (-1 : Int) < 0 ∧
      (∀ m ∈ c10History, m.date ≤ 100)) ∧
    get_recent_messages true (some (-1001234567890)) 100 c10History (-1) =
      Except.ok
        { success := true
          messages := []
          message_count := 0
          hours_requested := -1
          time_threshold := 100 - (-1) * 3600
          channel_id := toString (-1001234567890 : Int) } :=
  ⟨⟨by decide, by decide, by decide⟩,
    c10_negative_hours (-1001234567890) (by decide) 100 (-1) (by decide) c10History
      (by decide)⟩
